import Mathlib

/-!
Shallow embedding of the document-generation core of the boots-and-honey
repository: the configuration provider (`src/lib/config/environment.ts`),
the document service orchestrator (`src/lib/documents/pdf-generator.ts`,
`DocumentService`), and the pick-slip renderer's rush detection
(`PickSlipTemplate.addOrderSummary`).

Collaborator behaviour (database, storage provider, PDF renderer) is
modelled by an explicit environment `Env` supplying the outcome of each
external call; the `order_documents` table is modelled as an explicit
`DBState` threaded through the operations.  JavaScript exceptions are
modelled with `Except String`: a `throw` in the source becomes
`Except.error`, and a `try/catch` becomes a `match` on the body's result.
Result values mirror the source's result shapes field by field; an
`undefined` optional field is `none`.  Item and addon payloads carried by
`CompleteOrderData` are elided because no modelled operation other than
the fetch reads them; the fetch's error behaviour is kept in full.
-/

namespace BootsHoney

/-- Order row, restricted to the fields the modelled operations read
(`id`, `order_number` and, for the pick-slip renderer,
`special_instructions`). -/
structure Order where
  id : String
  order_number : String
  special_instructions : Option String
deriving Repr, DecidableEq

/-- One `order_documents` tracking row, with the columns written by
`DocumentService` (`createDocumentRecord`, `updateDocumentRecord`,
`retryDocument`). -/
structure OrderDocRow where
  id : Nat
  order_id : String
  document_type : String
  status : String
  file_url : Option String
  file_path : Option String
  error_message : Option String
  retry_count : Nat
  webhook_event_id : Option String
deriving Repr, DecidableEq

/-- The `order_documents` table: its rows in insertion order, plus the id
the next insert will receive. -/
structure DBState where
  rows : List OrderDocRow
  nextId : Nat
deriving Repr, DecidableEq

/-- Result shape of `PDFGenerationService.generateReceipt` /
`generatePickSlip` (`DocumentGenerationResult` in the source). -/
structure DocumentGenerationResult where
  success : Bool
  filePath : Option String
  error : Option String
deriving Repr, DecidableEq

/-- Result shape of `SupabaseStorageService.uploadFile` (`UploadResult`
in the source). -/
structure UploadResult where
  success : Bool
  fileUrl : Option String
  filePath : Option String
  error : Option String
deriving Repr, DecidableEq

/-- Environment: one deterministic outcome for every external call the
orchestrator can make.  Render and upload outcomes are keyed by document
type, matching the one render and at most one upload the orchestrator
issues per type within a call. -/
structure Env where
  /-- `NEXT_PUBLIC_SUPABASE_URL` / `SUPABASE_SERVICE_ROLE_KEY` present:
  when false, `getSupabase()` throws. -/
  credentialsOk : Bool
  /-- The `orders` select by id: `none` models both "no row" and a select
  error (the source treats them alike). -/
  orderRow : Option Order
  /-- Error of the `order_items` join-fetch, if any. -/
  itemsError : Option String
  /-- Error of the `order_addons` join-fetch, if any. -/
  addonsError : Option String
  /-- Error of the `order_documents` insert for a given document type. -/
  insertError : String → Option String
  /-- Outcome of the PDF render for a given document type. -/
  renderResult : String → DocumentGenerationResult
  /-- Outcome of the storage upload for a given document type. -/
  uploadResult : String → UploadResult
  /-- Error of the `order_documents` select used by `getOrderDocuments`
  and `retryDocument`. -/
  docSelectError : Option String
  /-- Error result of the bounded `orders` select in `getHealthStatus`. -/
  healthSelectError : Option String
  /-- `totalFiles` of the storage stats call; `getStorageStats` counts a
  file listing, so it is a natural number (0 on internal failure). -/
  storageTotalFiles : Nat
  /-- Process environment variables, for the configuration provider. -/
  envVars : String → Option String
  /-- Current timestamp, as the ISO string the source would produce. -/
  now : String

/-! ### Configuration provider (`EnvironmentConfig`) -/

/-- JavaScript `String.prototype.toLowerCase`, as a characterwise map
(the strings compared in this code are ASCII). -/
def jsToLower (s : String) : String := ⟨s.data.map Char.toLower⟩

/-- `EnvironmentConfig.getBoolean`: the source reads
`process.env[key]`, returns the default when the value is falsy
(absent or the empty string), else compares its lowercasing to
`"true"`. -/
def getBoolean (envVars : String → Option String) (key : String)
    (defaultValue : Bool) : Bool :=
  match envVars key with
  | none => defaultValue
  | some v => if v == "" then defaultValue else jsToLower v == "true"

/-- The spec's reading of `getBoolean`, for the refinement comparison:
"parses `'true'` (case-insensitive) as true, any other set value as
false, unset yields the default".  It differs from the source on a key
set to the empty string. -/
def getBooleanSpec (envVars : String → Option String) (key : String)
    (defaultValue : Bool) : Bool :=
  match envVars key with
  | none => defaultValue
  | some v => jsToLower v == "true"

/-- `config.canGenerateDocuments()`: the `ENABLE_DOCUMENT_GENERATION`
flag (default false). -/
def canGenerateDocuments (envVars : String → Option String) : Bool :=
  getBoolean envVars "ENABLE_DOCUMENT_GENERATION" false

/-! ### Pick-slip rush detection (`PickSlipTemplate.addOrderSummary`) -/

/-- JavaScript `String.prototype.includes`: substring containment,
expressed on the character lists. -/
def charsContain (needle : List Char) : List Char → Bool
  | [] => needle.isEmpty
  | c :: t => needle.isPrefixOf (c :: t) || charsContain needle t

/-- `haystack.includes(needle)` for Lean strings. -/
def jsIncludes (haystack needle : String) : Bool :=
  charsContain needle.toList haystack.toList

/-- The renderer's rush test: `special_instructions?.toLowerCase()
.includes('rush') || special_instructions?.toLowerCase()
.includes('urgent')` (an absent value is falsy). -/
def isRushOrder (specialInstructions : Option String) : Bool :=
  match specialInstructions with
  | none => false
  | some s =>
    jsIncludes (jsToLower s) "rush" || jsIncludes (jsToLower s) "urgent"

/-- The priority-indicator lines `addOrderSummary` draws into the
fulfillment box: the rush marker when the rush test fires, nothing
otherwise. -/
def pickSlipPriorityLines (order : Order) : List String :=
  if isRushOrder order.special_instructions then ["RUSH ORDER"] else []

/-! ### Document service orchestrator (`DocumentService`) -/

/-- Per-document outcome returned by
`DocumentService.generateSingleDocument`. -/
structure SingleDocResult where
  id : Nat
  fileUrl : String
  status : String
  error : Option String
deriving Repr, DecidableEq

/-- `DocumentGenerationResponse` from the source, with the `documents`
object flattened into its two optional entries. -/
structure DocumentGenerationResponse where
  success : Bool
  receipt : Option SingleDocResult
  pickSlip : Option SingleDocResult
  error : Option String
deriving Repr, DecidableEq

/-- `DocumentGenerationRequest` from the source. -/
structure DocumentGenerationRequest where
  orderId : String
  documentType : String
  webhookEventId : Option String
deriving Repr, DecidableEq

/-- Observable dispatch/settle events of the per-document attempts
inside one `generateDocuments` call, recording the order in which the
source's awaits run. -/
inductive GenEvent where
  | dispatch (documentType : String)
  | settle (documentType : String) (status : String)
deriving Repr, DecidableEq

/-- `DocumentService.fetchOrderData`: selects the order, then the items
and addons joins; every failure (a thrown credentials error, a missing
or errored order select, or a thrown items/addons fetch error) is caught
by its own `try/catch` and collapsed to `null`. -/
def fetchOrderData (env : Env) : Option Order :=
  if !env.credentialsOk then none
  else
    match env.orderRow with
    | none => none
    | some order =>
      if env.itemsError.isSome || env.addonsError.isSome then none
      else some order

/-- `DocumentService.createDocumentRecord`: inserts a `pending` row and
throws on a credentials failure or an insert error. -/
def createDocumentRecord (env : Env) (st : DBState) (orderId : String)
    (documentType : String) (webhookEventId : Option String) :
    Except String (OrderDocRow × DBState) :=
  if !env.credentialsOk then
    .error "Missing Supabase credentials for document service"
  else
    match env.insertError documentType with
    | some e => .error ("Failed to create document record: " ++ e)
    | none =>
      let row : OrderDocRow :=
        { id := st.nextId
          order_id := orderId
          document_type := documentType
          status := "pending"
          file_url := none
          file_path := none
          error_message := none
          retry_count := 0
          webhook_event_id := webhookEventId }
      .ok (row, { rows := st.rows ++ [row], nextId := st.nextId + 1 })

/-- The column assignment `updateDocumentRecord` sends: an `undefined`
value is dropped from the update payload, so the column keeps its
previous value. -/
def applyUpdate (row : OrderDocRow) (status : String)
    (errorMessage fileUrl filePath : Option String) : OrderDocRow :=
  { row with
    status := status
    error_message := match errorMessage with
      | some e => some e
      | none => row.error_message
    file_url := match fileUrl with
      | some u => some u
      | none => row.file_url
    file_path := match filePath with
      | some p => some p
      | none => row.file_path }

/-- `DocumentService.updateDocumentRecord`: updates the row with the
given id; a database error result is swallowed, so the update is
modelled as applying. -/
def updateDocumentRecord (st : DBState) (documentId : Nat)
    (status : String) (errorMessage fileUrl filePath : Option String) :
    DBState :=
  { st with
    rows := st.rows.map fun r =>
      if r.id == documentId then
        applyUpdate r status errorMessage fileUrl filePath
      else r }

/-- `DocumentService.generateSingleDocument`: insert the pending row
(a thrown insert error propagates), render, upload, and record the
outcome on that row.  The returned trace marks the attempt's dispatch
and, once an outcome exists, its settlement. -/
def generateSingleDocument (env : Env) (st : DBState) (order : Order)
    (documentType : String) (webhookEventId : Option String) :
    Except String SingleDocResult × DBState × List GenEvent :=
  match createDocumentRecord env st order.id documentType webhookEventId with
  | .error e => (.error e, st, [.dispatch documentType])
  | .ok (row, st1) =>
    let pdfResult := env.renderResult documentType
    if !pdfResult.success then
      (.ok { id := row.id, fileUrl := "", status := "failed",
             error := pdfResult.error },
       updateDocumentRecord st1 row.id "failed" pdfResult.error none none,
       [.dispatch documentType, .settle documentType "failed"])
    else
      let uploadResult := env.uploadResult documentType
      if !uploadResult.success then
        (.ok { id := row.id, fileUrl := "", status := "failed",
               error := uploadResult.error },
         updateDocumentRecord st1 row.id "failed" uploadResult.error none none,
         [.dispatch documentType, .settle documentType "failed"])
      else
        (.ok { id := row.id, fileUrl := uploadResult.fileUrl.getD "",
               status := "generated", error := none },
         updateDocumentRecord st1 row.id "generated" none
           uploadResult.fileUrl uploadResult.filePath,
         [.dispatch documentType, .settle documentType "generated"])

/-- The aggregation at the end of `generateDocuments`: `success` starts
true and is cleared when any present outcome has status `failed`. -/
def aggregateResponse (receipt pickSlip : Option SingleDocResult) :
    DocumentGenerationResponse :=
  let hasFailures :=
    receipt.any (fun d => d.status == "failed") ||
    pickSlip.any (fun d => d.status == "failed")
  { success := !hasFailures
    receipt := receipt
    pickSlip := pickSlip
    error := if hasFailures then
        some "One or more documents failed to generate"
      else none }

/-- Body of `DocumentService.generateDocuments` before its outermost
`catch`: fetch the order (returning the `Order not found` response when
the fetch collapses to `null`), then run the requested attempts in the
source's order — receipt first, then pick slip. -/
def generateDocumentsBody (env : Env) (st : DBState)
    (req : DocumentGenerationRequest) :
    Except String DocumentGenerationResponse × DBState × List GenEvent :=
  match fetchOrderData env with
  | none =>
    (.ok { success := false, receipt := none, pickSlip := none,
           error := some "Order not found" }, st, [])
  | some order =>
    if req.documentType == "receipt" || req.documentType == "both" then
      match generateSingleDocument env st order "receipt" req.webhookEventId with
      | (.error e, st1, ev1) => (.error e, st1, ev1)
      | (.ok r, st1, ev1) =>
        if req.documentType == "both" then
          match generateSingleDocument env st1 order "pick_slip"
              req.webhookEventId with
          | (.error e, st2, ev2) => (.error e, st2, ev1 ++ ev2)
          | (.ok p, st2, ev2) =>
            (.ok (aggregateResponse (some r) (some p)), st2, ev1 ++ ev2)
      else
        (.ok (aggregateResponse (some r) none), st1, ev1)
    else if req.documentType == "pick_slip" then
      match generateSingleDocument env st order "pick_slip"
          req.webhookEventId with
      | (.error e, st1, ev1) => (.error e, st1, ev1)
      | (.ok p, st1, ev1) =>
        (.ok (aggregateResponse none (some p)), st1, ev1)
    else
      (.ok (aggregateResponse none none), st, [])

/-- `DocumentService.generateDocuments`: the body wrapped in the
outermost `try/catch`, which converts any thrown error into a
structured failure response. -/
def generateDocuments (env : Env) (st : DBState)
    (req : DocumentGenerationRequest) :
    DocumentGenerationResponse × DBState × List GenEvent :=
  match generateDocumentsBody env st req with
  | (.error e, st1, ev) =>
    ({ success := false, receipt := none, pickSlip := none,
       error := some e }, st1, ev)
  | (.ok r, st1, ev) => (r, st1, ev)

/-- `DocumentService.getOrderDocuments`: select the order's tracking
rows newest-first; a select error is re-thrown
(`throw new Error('Failed to fetch documents: ...')`), and a missing
credential throws out of `getSupabase()`. -/
def getOrderDocuments (env : Env) (st : DBState) (orderId : String) :
    Except String (List OrderDocRow) :=
  if !env.credentialsOk then
    .error "Missing Supabase credentials for document service"
  else
    match env.docSelectError with
    | some e => .error ("Failed to fetch documents: " ++ e)
    | none => .ok ((st.rows.filter fun r => r.order_id == orderId).reverse)

/-- The row update `retryDocument` issues before re-running generation:
`retry_count: document.retry_count + 1, status: 'pending'`, applied to
the row with the given id. -/
def retryBump (documentId : Nat) (r : OrderDocRow) : OrderDocRow :=
  if r.id == documentId then
    { r with retry_count := r.retry_count + 1, status := "pending" }
  else r

/-- `DocumentService.retryDocument`: load the row (a select error or a
missing row yields the structured `Document record not found` failure),
bump its `retry_count` and reset it to `pending`, then re-invoke
`generateDocuments` for the row's order and document type. -/
def retryDocument (env : Env) (st : DBState) (documentId : Nat) :
    Except String
      (DocumentGenerationResponse × DBState × List GenEvent) :=
  if !env.credentialsOk then
    .error "Missing Supabase credentials for document service"
  else
    match
      (if env.docSelectError.isSome then none
       else st.rows.find? fun r => r.id == documentId) with
    | none =>
      .ok ({ success := false, receipt := none, pickSlip := none,
             error := some "Document record not found" }, st, [])
    | some document =>
      let st1 : DBState :=
        { st with rows := st.rows.map (retryBump documentId) }
      .ok (generateDocuments env st1
        { orderId := document.order_id
          documentType := document.document_type
          webhookEventId := document.webhook_event_id })

/-- Health report returned by `DocumentService.getHealthStatus`. -/
structure HealthStatus where
  healthy : Bool
  database : Bool
  storage : Bool
  configuration : Bool
  error : Option String
  lastCheck : String
deriving Repr, DecidableEq

/-- `DocumentService.getHealthStatus`: a bounded `orders` select, the
storage stats call (which never throws and reports a file count), and
the configuration flag; `healthy` is computed from the database error
and the flag.  A thrown credentials error is caught and reported as an
unhealthy result carrying the message. -/
def getHealthStatus (env : Env) : HealthStatus :=
  if !env.credentialsOk then
    { healthy := false, database := false, storage := false,
      configuration := false,
      error := some "Missing Supabase credentials for document service",
      lastCheck := env.now }
  else
    let dbError := env.healthSelectError.isSome
    let canGenerate := canGenerateDocuments env.envVars
    { healthy := !dbError && canGenerate
      database := !dbError
      storage := decide (env.storageTotalFiles ≥ 0)
      configuration := canGenerate
      error := none
      lastCheck := env.now }

/-! ### Concrete fixtures -/

/-- A concrete order used by the closed witnesses and counterexamples. -/
def orderA : Order :=
  { id := "o1", order_number := "BH-1001", special_instructions := none }

/-- Environment in which every collaborator call succeeds. -/
def envAllOk : Env :=
  { credentialsOk := true
    orderRow := some orderA
    itemsError := none
    addonsError := none
    insertError := fun _ => none
    renderResult := fun dt =>
      { success := true
        filePath := some ("/tmp/documents/" ++ dt ++ "_BH-1001_1.pdf")
        error := none }
    uploadResult := fun dt =>
      { success := true
        fileUrl := some ("https://storage.example/documents/" ++ dt ++ ".pdf")
        filePath := some ("documents/" ++ dt ++ ".pdf")
        error := none }
    docSelectError := none
    healthSelectError := none
    storageTotalFiles := 0
    envVars := fun _ => none
    now := "2026-01-01T00:00:00.000Z" }

/-- The empty `order_documents` table. -/
def st0 : DBState := { rows := [], nextId := 0 }

/-- A tracking row left by an earlier failed receipt attempt. -/
def failedReceiptRow : OrderDocRow :=
  { id := 0, order_id := "o1", document_type := "receipt",
    status := "failed", file_url := none, file_path := none,
    error_message := some "Upload failed: boom", retry_count := 0,
    webhook_event_id := none }

/-- A table holding just `failedReceiptRow`. -/
def stOne : DBState := { rows := [failedReceiptRow], nextId := 1 }

/-- Process environment with the generation flag set to the empty
string. -/
def emptyFlagEnv : String → Option String :=
  fun k => if k == "ENABLE_DOCUMENT_GENERATION" then some "" else none

/-- Environment whose `order_documents` select returns an error
result. -/
def envDbDown : Env := { envAllOk with docSelectError := some "connection reset" }

/-- Environment in which the requested order id has no matching
row. -/
def envNoOrder : Env := { envAllOk with orderRow := none }

/-- Environment in which the order row exists but the items join-fetch
fails. -/
def envItemsFail : Env := { envAllOk with itemsError := some "timeout" }

/-- Environment in which renders succeed but every upload returns a
failure result carrying the message `x`. -/
def envUploadFail : Env :=
  { envAllOk with
    uploadResult := fun _ =>
      { success := false, fileUrl := none, filePath := none,
        error := some "x" } }

/-- The concrete order with non-rush special instructions from the
spec's rush-detection property. -/
def orderExpedite : Order :=
  { orderA with special_instructions := some "please expedite" }

/-- A concrete request for both document types. -/
def reqBoth : DocumentGenerationRequest :=
  { orderId := "o1", documentType := "both", webhookEventId := none }

/-! ### Supporting lemmas -/

/-- The embedded `includes` decides substring containment. -/
theorem charsContain_iff (needle hay : List Char) :
    charsContain needle hay = true ↔ needle <:+: hay := by
  induction hay with
  | nil => simp [charsContain, List.isEmpty_iff]
  | cons c t ih =>
    simp [charsContain, ih, List.infix_cons_iff, Bool.or_eq_true]

/-- The renderer's rush test fires exactly when the lowercased special
instructions contain `rush` or `urgent` as a substring. -/
theorem isRushOrder_iff (si : Option String) :
    isRushOrder si = true ↔
      ∃ s, si = some s ∧
        ("rush".toList <:+: (jsToLower s).toList ∨
         "urgent".toList <:+: (jsToLower s).toList) := by
  cases si with
  | none => simp [isRushOrder]
  | some s =>
    simp [isRushOrder, jsIncludes, charsContain_iff, Bool.or_eq_true]

/-- Fetching order data fails exactly on a missing credential, a missing
or errored order select, or an items/addons fetch error. -/
theorem fetchOrderData_eq_none_of_orderRow_eq_none (env : Env)
    (h : env.orderRow = none) : fetchOrderData env = none := by
  unfold fetchOrderData
  rw [h]
  cases env.credentialsOk <;> simp

/-- A failed items or addons fetch also collapses the order fetch to
`null`. -/
theorem fetchOrderData_eq_none_of_fetch_error (env : Env) (o : Order)
    (ho : env.orderRow = some o)
    (hfail : env.itemsError.isSome = true ∨ env.addonsError.isSome = true) :
    fetchOrderData env = none := by
  unfold fetchOrderData
  rw [ho]
  rcases hfail with h | h <;> cases env.credentialsOk <;> simp [h]

/-- `generateDocuments` when the fetch has collapsed to `null`. -/
theorem generateDocuments_of_fetch_none (env : Env) (st : DBState)
    (req : DocumentGenerationRequest) (h : fetchOrderData env = none) :
    generateDocuments env st req =
      ({ success := false, receipt := none, pickSlip := none,
         error := some "Order not found" }, st, []) := by
  unfold generateDocuments generateDocumentsBody
  rw [h]

/-- When the order row exists and the joined fetches succeed, the fetch
returns the order. -/
theorem fetchOrderData_eq_some (env : Env) (o : Order)
    (hcred : env.credentialsOk = true) (ho : env.orderRow = some o)
    (hitems : env.itemsError = none) (haddons : env.addonsError = none) :
    fetchOrderData env = some o := by
  unfold fetchOrderData
  rw [hcred, ho]
  simp [hitems, haddons]

/-- An update keyed on a fresh id leaves existing rows untouched. -/
theorem map_update_fresh (rows : List OrderDocRow) (n : Nat)
    (f : OrderDocRow → OrderDocRow) (hfresh : ∀ r ∈ rows, r.id < n) :
    rows.map (fun r => if r.id == n then f r else r) = rows := by
  conv_rhs => rw [← List.map_id rows]
  apply List.map_congr_left
  intro a ha
  have hlt := hfresh a ha
  have hne : (a.id == n) = false := by
    simp only [beq_eq_false_iff_ne, ne_eq]
    omega
  simp [hne]

/-- Updating the just-inserted row of a fresh table rewrites only that
row. -/
theorem updateDocumentRecord_append_fresh (rows : List OrderDocRow)
    (n : Nat) (row : OrderDocRow) (hfresh : ∀ r ∈ rows, r.id < n)
    (hrow : row.id = n) (status : String) (em fu fp : Option String) :
    updateDocumentRecord { rows := rows ++ [row], nextId := n + 1 } n
        status em fu fp
      = { rows := rows ++ [applyUpdate row status em fu fp],
          nextId := n + 1 } := by
  unfold updateDocumentRecord
  simp only [List.map_append, List.map_cons, List.map_nil,
    map_update_fresh rows n _ hfresh, hrow, beq_self_eq_true, if_true]

/-- A successful insert appends the pending row and bumps the next
id. -/
theorem createDocumentRecord_ok (env : Env) (st : DBState)
    (orderId documentType : String) (whk : Option String)
    (hcred : env.credentialsOk = true)
    (hins : env.insertError documentType = none) :
    createDocumentRecord env st orderId documentType whk =
      .ok ({ id := st.nextId, order_id := orderId,
             document_type := documentType, status := "pending",
             file_url := none, file_path := none, error_message := none,
             retry_count := 0, webhook_event_id := whk },
           { rows := st.rows ++
               [{ id := st.nextId, order_id := orderId,
                  document_type := documentType, status := "pending",
                  file_url := none, file_path := none,
                  error_message := none, retry_count := 0,
                  webhook_event_id := whk }],
             nextId := st.nextId + 1 }) := by
  unfold createDocumentRecord
  rw [hcred, hins]
  rfl

/-- An option match that forwards `some` and falls back to `none` is
the identity. -/
theorem option_match_none (em : Option String) :
    (match em with
      | some e => some e
      | none => (none : Option String)) = em := by
  cases em <;> rfl

/-- A single-document attempt whose render fails settles as `failed`,
recording the render error on the freshly inserted row. -/
theorem generateSingleDocument_render_fail (env : Env) (st : DBState)
    (order : Order) (dt : String) (whk : Option String)
    (hcred : env.credentialsOk = true)
    (hins : env.insertError dt = none)
    (hfresh : ∀ r ∈ st.rows, r.id < st.nextId)
    (hrender : (env.renderResult dt).success = false) :
    generateSingleDocument env st order dt whk =
      (.ok { id := st.nextId, fileUrl := "", status := "failed",
             error := (env.renderResult dt).error },
       { rows := st.rows ++
           [{ id := st.nextId, order_id := order.id, document_type := dt,
              status := "failed", file_url := none, file_path := none,
              error_message := (env.renderResult dt).error,
              retry_count := 0, webhook_event_id := whk }],
         nextId := st.nextId + 1 },
       [.dispatch dt, .settle dt "failed"]) := by
  unfold generateSingleDocument
  rw [createDocumentRecord_ok env st order.id dt whk hcred hins]
  simp only [hrender, Bool.not_false, if_true,
    updateDocumentRecord_append_fresh st.rows st.nextId
      ⟨st.nextId, order.id, dt, "pending", none, none, none, 0, whk⟩
      hfresh rfl,
    applyUpdate, option_match_none]

/-- A single-document attempt whose render succeeds but whose upload
returns a failure result settles as `failed`, recording the upload
error on the freshly inserted row and setting no file url. -/
theorem generateSingleDocument_upload_fail (env : Env) (st : DBState)
    (order : Order) (dt : String) (whk : Option String)
    (hcred : env.credentialsOk = true)
    (hins : env.insertError dt = none)
    (hfresh : ∀ r ∈ st.rows, r.id < st.nextId)
    (hrender : (env.renderResult dt).success = true)
    (hupload : (env.uploadResult dt).success = false) :
    generateSingleDocument env st order dt whk =
      (.ok { id := st.nextId, fileUrl := "", status := "failed",
             error := (env.uploadResult dt).error },
       { rows := st.rows ++
           [{ id := st.nextId, order_id := order.id, document_type := dt,
              status := "failed", file_url := none, file_path := none,
              error_message := (env.uploadResult dt).error,
              retry_count := 0, webhook_event_id := whk }],
         nextId := st.nextId + 1 },
       [.dispatch dt, .settle dt "failed"]) := by
  unfold generateSingleDocument
  rw [createDocumentRecord_ok env st order.id dt whk hcred hins]
  simp only [hrender, hupload, Bool.not_true, Bool.not_false,
    Bool.false_eq_true, if_false, if_true,
    updateDocumentRecord_append_fresh st.rows st.nextId
      ⟨st.nextId, order.id, dt, "pending", none, none, none, 0, whk⟩
      hfresh rfl,
    applyUpdate, option_match_none]

/-- A single-document attempt whose render and upload both succeed
settles as `generated`, storing the file url and path on the freshly
inserted row. -/
theorem generateSingleDocument_generated (env : Env) (st : DBState)
    (order : Order) (dt : String) (whk : Option String)
    (hcred : env.credentialsOk = true)
    (hins : env.insertError dt = none)
    (hfresh : ∀ r ∈ st.rows, r.id < st.nextId)
    (hrender : (env.renderResult dt).success = true)
    (hupload : (env.uploadResult dt).success = true) :
    generateSingleDocument env st order dt whk =
      (.ok { id := st.nextId,
             fileUrl := (env.uploadResult dt).fileUrl.getD "",
             status := "generated", error := none },
       { rows := st.rows ++
           [{ id := st.nextId, order_id := order.id, document_type := dt,
              status := "generated",
              file_url := (env.uploadResult dt).fileUrl,
              file_path := (env.uploadResult dt).filePath,
              error_message := none, retry_count := 0,
              webhook_event_id := whk }],
         nextId := st.nextId + 1 },
       [.dispatch dt, .settle dt "generated"]) := by
  unfold generateSingleDocument
  rw [createDocumentRecord_ok env st order.id dt whk hcred hins]
  simp only [hrender, hupload, Bool.not_true, Bool.false_eq_true,
    if_false,
    updateDocumentRecord_append_fresh st.rows st.nextId
      ⟨st.nextId, order.id, dt, "pending", none, none, none, 0, whk⟩
      hfresh rfl,
    applyUpdate, option_match_none]

/-- When the insert succeeds, a single-document attempt always settles:
it returns an outcome whose status is `generated` or `failed`, appends
exactly one row carrying that status, and traces a dispatch followed by
a settlement. -/
theorem generateSingleDocument_insert_ok (env : Env) (st : DBState)
    (order : Order) (documentType : String) (whk : Option String)
    (hcred : env.credentialsOk = true)
    (hins : env.insertError documentType = none)
    (hfresh : ∀ r ∈ st.rows, r.id < st.nextId) :
    ∃ res finalRow,
      generateSingleDocument env st order documentType whk =
        (.ok res,
         { rows := st.rows ++ [finalRow], nextId := st.nextId + 1 },
         [.dispatch documentType, .settle documentType res.status])
      ∧ res.id = st.nextId
      ∧ finalRow.id = st.nextId
      ∧ finalRow.order_id = order.id
      ∧ finalRow.document_type = documentType
      ∧ finalRow.status = res.status
      ∧ (res.status = "generated" ∨ res.status = "failed") := by
  cases hrender : (env.renderResult documentType).success
  · exact ⟨_, _,
      generateSingleDocument_render_fail env st order documentType whk
        hcred hins hfresh hrender,
      rfl, rfl, rfl, rfl, rfl, Or.inr rfl⟩
  · cases hupload : (env.uploadResult documentType).success
    · exact ⟨_, _,
        generateSingleDocument_upload_fail env st order documentType whk
          hcred hins hfresh hrender hupload,
        rfl, rfl, rfl, rfl, rfl, Or.inr rfl⟩
    · exact ⟨_, _,
        generateSingleDocument_generated env st order documentType whk
          hcred hins hfresh hrender hupload,
        rfl, rfl, rfl, rfl, rfl, Or.inl rfl⟩

/-- A `both` request with an existing order and two successful inserts
runs the receipt attempt to settlement and only then the pick-slip
attempt, appends exactly the two attempt rows, and aggregates both
outcomes. -/
theorem generateDocuments_both_spec (env : Env) (st : DBState)
    (oid : String) (whk : Option String) (o : Order)
    (hcred : env.credentialsOk = true) (ho : env.orderRow = some o)
    (hitems : env.itemsError = none) (haddons : env.addonsError = none)
    (hinsR : env.insertError "receipt" = none)
    (hinsP : env.insertError "pick_slip" = none)
    (hfresh : ∀ r ∈ st.rows, r.id < st.nextId) :
    ∃ r p rowR rowP,
      generateDocuments env st
          { orderId := oid, documentType := "both",
            webhookEventId := whk } =
        (aggregateResponse (some r) (some p),
         { rows := st.rows ++ [rowR] ++ [rowP],
           nextId := st.nextId + 1 + 1 },
         [.dispatch "receipt", .settle "receipt" r.status,
          .dispatch "pick_slip", .settle "pick_slip" p.status])
      ∧ (r.status = "generated" ∨ r.status = "failed")
      ∧ (p.status = "generated" ∨ p.status = "failed")
      ∧ rowR.status = r.status ∧ rowP.status = p.status
      ∧ rowR.document_type = "receipt"
      ∧ rowP.document_type = "pick_slip" := by
  obtain ⟨r, rowR, heR, hidR, hrowidR, hordR, hdtR, hstR, hdisjR⟩ :=
    generateSingleDocument_insert_ok env st o "receipt" whk hcred hinsR
      hfresh
  have hfresh2 : ∀ q ∈ st.rows ++ [rowR], q.id < st.nextId + 1 := by
    intro q hq
    rcases List.mem_append.mp hq with h | h
    · exact Nat.lt_succ_of_lt (hfresh q h)
    · rw [List.mem_singleton.mp h, hrowidR]
      omega
  obtain ⟨p, rowP, heP, hidP, hrowidP, hordP, hdtP, hstP, hdisjP⟩ :=
    generateSingleDocument_insert_ok env
      { rows := st.rows ++ [rowR], nextId := st.nextId + 1 } o
      "pick_slip" whk hcred hinsP hfresh2
  refine ⟨r, p, rowR, rowP, ?_, hdisjR, hdisjP, hstR, hstP, hdtR, hdtP⟩
  unfold generateDocuments generateDocumentsBody
  rw [fetchOrderData_eq_some env o hcred ho hitems haddons]
  simp only [beq_self_eq_true, Bool.or_true, if_true, heR, heP]
  rfl

/-- A single-type request with an existing order and a successful
insert settles exactly one attempt, appending one row. -/
theorem generateDocuments_single_spec (env : Env) (st : DBState)
    (oid : String) (whk : Option String) (o : Order) (dt : String)
    (hdt : dt = "receipt" ∨ dt = "pick_slip")
    (hcred : env.credentialsOk = true) (ho : env.orderRow = some o)
    (hitems : env.itemsError = none) (haddons : env.addonsError = none)
    (hins : env.insertError dt = none)
    (hfresh : ∀ r ∈ st.rows, r.id < st.nextId) :
    ∃ (resp : DocumentGenerationResponse) (res : SingleDocResult)
      (newRow : OrderDocRow),
      generateDocuments env st
          { orderId := oid, documentType := dt, webhookEventId := whk } =
        (resp, { rows := st.rows ++ [newRow], nextId := st.nextId + 1 },
         [.dispatch dt, .settle dt res.status])
      ∧ newRow.id = st.nextId
      ∧ newRow.order_id = o.id
      ∧ newRow.document_type = dt
      ∧ newRow.status = res.status
      ∧ (res.status = "generated" ∨ res.status = "failed") := by
  obtain ⟨res, newRow, heq, hid, hrowid, hord, hdteq, hst, hdisj⟩ :=
    generateSingleDocument_insert_ok env st o dt whk hcred hins hfresh
  rcases hdt with rfl | rfl
  · refine ⟨aggregateResponse (some res) none, res, newRow, ?_, hrowid,
      hord, hdteq, hst, hdisj⟩
    unfold generateDocuments generateDocumentsBody
    rw [fetchOrderData_eq_some env o hcred ho hitems haddons]
    simp only [beq_self_eq_true, Bool.true_or, if_true, heq]
    rw [if_neg (by decide)]
  · have hc1 : ((("pick_slip" : String) == "receipt")
        || (("pick_slip" : String) == "both")) = false := by decide
    refine ⟨aggregateResponse none (some res), res, newRow, ?_, hrowid,
      hord, hdteq, hst, hdisj⟩
    unfold generateDocuments generateDocumentsBody
    rw [fetchOrderData_eq_some env o hcred ho hitems haddons]
    simp only [hc1, Bool.false_eq_true, if_false, beq_self_eq_true,
      if_true, heq]

/-! ### Claim theorems -/

/-- C5: a `generateDocuments` request whose order id has no matching
order row returns `success := false` with error `Order not found`, and
inserts no `order_documents` tracking row (the table is unchanged). -/
theorem C5_order_not_found (env : Env) (st : DBState)
    (req : DocumentGenerationRequest) (h : env.orderRow = none) :
    generateDocuments env st req =
      ({ success := false, receipt := none, pickSlip := none,
         error := some "Order not found" }, st, []) :=
  generateDocuments_of_fetch_none env st req
    (fetchOrderData_eq_none_of_orderRow_eq_none env h)

/-- C5 witness: the theorem applied at a concrete environment with no
matching order row. -/
theorem C5_order_not_found_witness :
    envNoOrder.orderRow = none ∧
    generateDocuments envNoOrder st0 reqBoth =
      ({ success := false, receipt := none, pickSlip := none,
         error := some "Order not found" }, st0, []) :=
  ⟨rfl, C5_order_not_found envNoOrder st0 reqBoth rfl⟩

/-- C10: when the order row exists but the items or addons read fails,
`generateDocuments` still returns the same `Order not found` failure
and inserts no tracking row — the error does not imply the order row is
absent. -/
theorem C10_fetch_failure_masked_as_not_found (env : Env) (st : DBState)
    (req : DocumentGenerationRequest) (o : Order)
    (ho : env.orderRow = some o)
    (hfail : env.itemsError.isSome = true ∨ env.addonsError.isSome = true) :
    generateDocuments env st req =
      ({ success := false, receipt := none, pickSlip := none,
         error := some "Order not found" }, st, []) :=
  generateDocuments_of_fetch_none env st req
    (fetchOrderData_eq_none_of_fetch_error env o ho hfail)

/-- C10 witness: a concrete environment whose order row exists but
whose items fetch fails. -/
theorem C10_fetch_failure_masked_witness :
    envItemsFail.orderRow = some orderA ∧
    envItemsFail.itemsError.isSome = true ∧
    generateDocuments envItemsFail st0 reqBoth =
      ({ success := false, receipt := none, pickSlip := none,
         error := some "Order not found" }, st0, []) :=
  ⟨rfl, rfl,
    C10_fetch_failure_masked_as_not_found envItemsFail st0 reqBoth orderA
      rfl (Or.inl rfl)⟩

/-- C9: the pick-slip renderer emits the rush marker exactly when the
lowercased special instructions contain the substring `rush` or
`urgent`; and `please expedite` in particular emits no marker. -/
theorem C9_rush_marker (o : Order) :
    ("RUSH ORDER" ∈ pickSlipPriorityLines o ↔
      ∃ s, o.special_instructions = some s ∧
        ("rush".toList <:+: (jsToLower s).toList ∨
         "urgent".toList <:+: (jsToLower s).toList))
    ∧ (o.special_instructions = some "please expedite" →
        pickSlipPriorityLines o = []) := by
  constructor
  · rw [← isRushOrder_iff]
    unfold pickSlipPriorityLines
    cases h : isRushOrder o.special_instructions <;> simp [h]
  · intro h
    simp only [pickSlipPriorityLines, h]
    decide

/-- C9 witness: the theorem applied at the concrete `please expedite`
order. -/
theorem C9_rush_marker_witness :
    orderExpedite.special_instructions = some "please expedite" ∧
    pickSlipPriorityLines orderExpedite = [] :=
  ⟨rfl, (C9_rush_marker orderExpedite).2 rfl⟩

/-- C8 counterexample: with `ENABLE_DOCUMENT_GENERATION` set to the
empty string and a documented default of true, the source's
`getBoolean` returns the default (true) where the claim says any set
value other than `true` parses as false. -/
theorem C8_empty_value_counterexample :
    emptyFlagEnv "ENABLE_DOCUMENT_GENERATION" = some "" ∧
    getBoolean emptyFlagEnv "ENABLE_DOCUMENT_GENERATION" true = true ∧
    getBooleanSpec emptyFlagEnv "ENABLE_DOCUMENT_GENERATION" true = false :=
  ⟨rfl, rfl, rfl⟩

/-- C8 amended: `getBoolean` parses `true` case-insensitively as true
and any other non-empty set value as false, while an unset or
empty-string value yields the key's documented default. -/
theorem C8_getBoolean_amended (envVars : String → Option String)
    (key : String) (defaultValue : Bool) :
    ((envVars key = none ∨ envVars key = some "") →
      getBoolean envVars key defaultValue = defaultValue)
    ∧ (∀ v, envVars key = some v → v ≠ "" →
      (getBoolean envVars key defaultValue = true ↔
        jsToLower v = "true")) := by
  constructor
  · rintro (h | h) <;> simp [getBoolean, h]
  · intro v hv hne
    simp [getBoolean, hv, hne]

/-- C8 witness: the amended theorem applied at a concrete environment
with the flag set to `TRUE`. -/
theorem C8_getBoolean_amended_witness :
    (fun k => if k == "F" then some "TRUE" else none) "F" = some "TRUE" ∧
    getBoolean (fun k => if k == "F" then some "TRUE" else none) "F" false
      = true :=
  ⟨rfl,
    ((C8_getBoolean_amended (fun k => if k == "F" then some "TRUE" else none)
      "F" false).2 "TRUE" rfl (by decide)).mpr rfl⟩

/-- C3 counterexample: with working credentials but an errored
`order_documents` select, `getOrderDocuments` throws
(`Failed to fetch documents: ...`) instead of returning a structured
result, so not every public entry point converts collaborator failures
into structured objects. -/
theorem C3_getOrderDocuments_throws :
    getOrderDocuments envDbDown st0 "o1" =
      .error "Failed to fetch documents: connection reset" := rfl

/-- C3 amended: `generateDocuments` converts every thrown error from
its body into a structured failure response (and `getHealthStatus`
returns a plain record by construction), but `getOrderDocuments` throws
exactly when credentials are missing or its select errors, and
`retryDocument` throws exactly when credentials are missing. -/
theorem C3_entry_point_throw_behaviour (env : Env) (st : DBState) :
    (∀ req e st1 ev,
      generateDocumentsBody env st req = (.error e, st1, ev) →
      generateDocuments env st req =
        ({ success := false, receipt := none, pickSlip := none,
           error := some e }, st1, ev))
    ∧ (∀ orderId, (getOrderDocuments env st orderId).isOk =
        (env.credentialsOk && env.docSelectError.isNone))
    ∧ (∀ documentId, (retryDocument env st documentId).isOk =
        env.credentialsOk) := by
  refine ⟨?_, ?_, ?_⟩
  · intro req e st1 ev h
    unfold generateDocuments
    rw [h]
  · intro orderId
    unfold getOrderDocuments
    cases hc : env.credentialsOk <;>
      cases hd : env.docSelectError <;>
        simp [hd, Except.isOk, Except.toBool]
  · intro documentId
    unfold retryDocument
    cases hc : env.credentialsOk
    · simp [Except.isOk, Except.toBool]
    · simp only [Bool.not_true, Bool.false_eq_true, if_false]
      cases hfind :
          (if env.docSelectError.isSome then none
           else st.rows.find? fun r => r.id == documentId) <;>
        simp [hfind, Except.isOk, Except.toBool]

/-- C3 witness: the amended theorem applied at a concrete environment
in which a tracking-row insert fails, showing the thrown insert error
surfaces as a structured failure response. -/
theorem C3_entry_point_throw_behaviour_witness :
    generateDocumentsBody
        { envAllOk with insertError := fun _ => some "insert down" }
        st0 reqBoth =
      (.error "Failed to create document record: insert down", st0,
       [.dispatch "receipt"]) ∧
    generateDocuments
        { envAllOk with insertError := fun _ => some "insert down" }
        st0 reqBoth =
      ({ success := false, receipt := none, pickSlip := none,
         error := some "Failed to create document record: insert down" },
       st0, [.dispatch "receipt"]) :=
  ⟨rfl,
    (C3_entry_point_throw_behaviour
        { envAllOk with insertError := fun _ => some "insert down" }
        st0).1 reqBoth
      "Failed to create document record: insert down" st0
      [.dispatch "receipt"] rfl⟩

/-- C7: `getHealthStatus` never throws; on the non-exception path the
three sub-checks are the bounded select, the storage file count being
nonnegative, and the generation flag, the result is timestamped, and
the composite flag is true exactly when all three sub-checks are true;
on an internal exception it reports unhealthy with the error
message. -/
theorem C7_health_status (env : Env) :
    (env.credentialsOk = true →
      ((getHealthStatus env).database = true ↔
        env.healthSelectError = none)
      ∧ ((getHealthStatus env).storage = true ↔
        env.storageTotalFiles ≥ 0)
      ∧ (getHealthStatus env).configuration =
          canGenerateDocuments env.envVars
      ∧ ((getHealthStatus env).healthy = true ↔
        ((getHealthStatus env).database = true ∧
         (getHealthStatus env).storage = true ∧
         (getHealthStatus env).configuration = true))
      ∧ (getHealthStatus env).error = none
      ∧ (getHealthStatus env).lastCheck = env.now)
    ∧ (env.credentialsOk = false →
      (getHealthStatus env).healthy = false
      ∧ (getHealthStatus env).error =
          some "Missing Supabase credentials for document service"
      ∧ (getHealthStatus env).lastCheck = env.now) := by
  constructor
  · intro h
    cases hdb : env.healthSelectError <;>
      cases hcg : canGenerateDocuments env.envVars <;>
        simp [getHealthStatus, h, hdb, hcg]
  · intro h
    simp [getHealthStatus, h]

/-- C7 witness: the theorem applied at the all-healthy concrete
environment. -/
theorem C7_health_status_witness :
    envAllOk.credentialsOk = true ∧
    (getHealthStatus envAllOk).error = none ∧
    (getHealthStatus envAllOk).lastCheck = envAllOk.now :=
  ⟨rfl, ((C7_health_status envAllOk).1 rfl).2.2.2.2.1,
    ((C7_health_status envAllOk).1 rfl).2.2.2.2.2⟩

/-- C2: in a `both` request (with an existing order and working
tracking-row inserts, the claim's render/upload failure scope), each of
the two document types is attempted and reported regardless of how the
other's render or upload went, each outcome settles as `generated` or
`failed`, and the top-level `success` flag is false exactly when at
least one outcome is `failed`. -/
theorem C2_both_partial_failure (env : Env) (st : DBState)
    (oid : String) (whk : Option String) (o : Order)
    (hcred : env.credentialsOk = true) (ho : env.orderRow = some o)
    (hitems : env.itemsError = none) (haddons : env.addonsError = none)
    (hinsR : env.insertError "receipt" = none)
    (hinsP : env.insertError "pick_slip" = none)
    (hfresh : ∀ r ∈ st.rows, r.id < st.nextId) :
    ∃ r p,
      (generateDocuments env st
        { orderId := oid, documentType := "both",
          webhookEventId := whk }).1.receipt = some r
      ∧ (generateDocuments env st
          { orderId := oid, documentType := "both",
            webhookEventId := whk }).1.pickSlip = some p
      ∧ (r.status = "generated" ∨ r.status = "failed")
      ∧ (p.status = "generated" ∨ p.status = "failed")
      ∧ ((generateDocuments env st
          { orderId := oid, documentType := "both",
            webhookEventId := whk }).1.success = false ↔
          (r.status = "failed" ∨ p.status = "failed")) := by
  obtain ⟨r, p, rowR, rowP, heq, hdr, hdp, _, _, _, _⟩ :=
    generateDocuments_both_spec env st oid whk o hcred ho hitems haddons
      hinsR hinsP hfresh
  refine ⟨r, p, ?_, ?_, hdr, hdp, ?_⟩
  · rw [heq]
    rfl
  · rw [heq]
    rfl
  · rw [heq]
    rcases hdr with h1 | h1 <;> rcases hdp with h2 | h2 <;>
      simp [aggregateResponse, h1, h2]

/-- C2 witness: the theorem applied at the all-success concrete
environment. -/
theorem C2_both_partial_failure_witness :
    envAllOk.orderRow = some orderA ∧
    (∃ r p,
      (generateDocuments envAllOk st0 reqBoth).1.receipt = some r
      ∧ (generateDocuments envAllOk st0 reqBoth).1.pickSlip = some p
      ∧ (r.status = "generated" ∨ r.status = "failed")
      ∧ (p.status = "generated" ∨ p.status = "failed")
      ∧ ((generateDocuments envAllOk st0 reqBoth).1.success = false ↔
          (r.status = "failed" ∨ p.status = "failed"))) :=
  ⟨rfl,
    C2_both_partial_failure envAllOk st0 "o1" none orderA rfl rfl rfl rfl
      rfl rfl (by intro r hr; simp [st0] at hr)⟩

/-- C4 counterexample: at a concrete all-success environment the trace
of a `both` call is receipt dispatch, receipt settlement, pick-slip
dispatch, pick-slip settlement — the receipt attempt fully settles
before the pick-slip attempt is even dispatched, so the two are not
dispatched concurrently with unspecified completion order. -/
theorem C4_sequential_counterexample :
    (generateDocuments envAllOk st0 reqBoth).2.2 =
      [.dispatch "receipt", .settle "receipt" "generated",
       .dispatch "pick_slip", .settle "pick_slip" "generated"] := rfl

/-- C4 amended: in a `both` call (existing order, working inserts) the
two generations are dispatched sequentially — the receipt attempt
settles before the pick-slip attempt is dispatched — and the call
returns only after both have settled as `generated` or `failed`. -/
theorem C4_sequential_dispatch (env : Env) (st : DBState)
    (oid : String) (whk : Option String) (o : Order)
    (hcred : env.credentialsOk = true) (ho : env.orderRow = some o)
    (hitems : env.itemsError = none) (haddons : env.addonsError = none)
    (hinsR : env.insertError "receipt" = none)
    (hinsP : env.insertError "pick_slip" = none)
    (hfresh : ∀ r ∈ st.rows, r.id < st.nextId) :
    ∃ sR sP,
      (generateDocuments env st
        { orderId := oid, documentType := "both",
          webhookEventId := whk }).2.2 =
        [.dispatch "receipt", .settle "receipt" sR,
         .dispatch "pick_slip", .settle "pick_slip" sP]
      ∧ (sR = "generated" ∨ sR = "failed")
      ∧ (sP = "generated" ∨ sP = "failed") := by
  obtain ⟨r, p, rowR, rowP, heq, hdr, hdp, _, _, _, _⟩ :=
    generateDocuments_both_spec env st oid whk o hcred ho hitems haddons
      hinsR hinsP hfresh
  exact ⟨r.status, p.status, by rw [heq], hdr, hdp⟩

/-- C4 witness: the amended theorem applied at the all-success concrete
environment. -/
theorem C4_sequential_dispatch_witness :
    envAllOk.credentialsOk = true ∧
    (∃ sR sP,
      (generateDocuments envAllOk st0 reqBoth).2.2 =
        [.dispatch "receipt", .settle "receipt" sR,
         .dispatch "pick_slip", .settle "pick_slip" sP]
      ∧ (sR = "generated" ∨ sR = "failed")
      ∧ (sP = "generated" ∨ sP = "failed")) :=
  ⟨rfl,
    C4_sequential_dispatch envAllOk st0 "o1" none orderA rfl rfl rfl rfl
      rfl rfl (by intro r hr; simp [st0] at hr)⟩

/-- C6: when the render succeeds and the upload returns
`success: false, error: x`, the attempt's tracking row ends with status
`failed`, `error_message` exactly `x`, and no `file_url`, and the
per-document result reports `failed` with that error. -/
theorem C6_upload_failure_row (env : Env) (st : DBState) (o : Order)
    (dt : String) (whk : Option String) (x : String)
    (hcred : env.credentialsOk = true)
    (hins : env.insertError dt = none)
    (hfresh : ∀ r ∈ st.rows, r.id < st.nextId)
    (hrender : (env.renderResult dt).success = true)
    (hupload : env.uploadResult dt =
      { success := false, fileUrl := none, filePath := none,
        error := some x }) :
    generateSingleDocument env st o dt whk =
      (.ok { id := st.nextId, fileUrl := "", status := "failed",
             error := some x },
       { rows := st.rows ++
           [{ id := st.nextId, order_id := o.id, document_type := dt,
              status := "failed", file_url := none, file_path := none,
              error_message := some x, retry_count := 0,
              webhook_event_id := whk }],
         nextId := st.nextId + 1 },
       [.dispatch dt, .settle dt "failed"]) := by
  have h := generateSingleDocument_upload_fail env st o dt whk hcred hins
    hfresh hrender (by rw [hupload])
  rw [hupload] at h
  exact h

/-- C6 witness: the theorem applied at the concrete environment whose
uploads fail with error `x`. -/
theorem C6_upload_failure_row_witness :
    envUploadFail.uploadResult "receipt" =
      { success := false, fileUrl := none, filePath := none,
        error := some "x" } ∧
    generateSingleDocument envUploadFail st0 orderA "receipt" none =
      (.ok { id := 0, fileUrl := "", status := "failed",
             error := some "x" },
       { rows := [{ id := 0, order_id := "o1", document_type := "receipt",
                    status := "failed", file_url := none,
                    file_path := none, error_message := some "x",
                    retry_count := 0, webhook_event_id := none }],
         nextId := 1 },
       [.dispatch "receipt", .settle "receipt" "failed"]) :=
  ⟨rfl,
    C6_upload_failure_row envUploadFail st0 orderA "receipt" none "x" rfl
      rfl (by intro r hr; simp [st0] at hr) rfl rfl⟩

/-- C1 counterexample: at a concrete all-success environment,
retrying the failed tracking row with id 0 leaves that row with status
`pending` (not in `{generated, failed}`) and creates a second row (id 1)
for the re-run, contradicting the claim that the retry re-runs on the
same row with no new row created. -/
theorem C1_retry_counterexample :
    (retryDocument envAllOk stOne 0).map
        (fun out => out.2.1.rows.map fun r => (r.id, r.status, r.retry_count))
      = .ok [(0, "pending", 1), (1, "generated", 0)] := rfl

/-- C1 amended: `retryDocument` increments the found row's retry
counter to exactly `r + 1` and resets it to `pending`, where it is then
left; the re-run inserts a new tracking row (when its insert succeeds)
and it is that new row, not the original, whose status settles in
`{generated, failed}`. -/
theorem C1_retry_same_row_amended (env : Env) (st : DBState)
    (documentId : Nat) (row : OrderDocRow) (o : Order)
    (hcred : env.credentialsOk = true)
    (hsel : env.docSelectError = none)
    (hfind : st.rows.find? (fun r => r.id == documentId) = some row)
    (ho : env.orderRow = some o) (hitems : env.itemsError = none)
    (haddons : env.addonsError = none)
    (hdt : row.document_type = "receipt" ∨
      row.document_type = "pick_slip")
    (hins : env.insertError row.document_type = none)
    (hfresh : ∀ r ∈ st.rows, r.id < st.nextId) :
    ∃ (resp : DocumentGenerationResponse) (newRow : OrderDocRow)
      (ev : List GenEvent),
      retryDocument env st documentId =
        .ok (resp,
          { rows := st.rows.map (retryBump documentId) ++ [newRow],
            nextId := st.nextId + 1 }, ev)
      ∧ newRow.id = st.nextId
      ∧ (newRow.status = "generated" ∨ newRow.status = "failed")
      ∧ (st.rows.map (retryBump documentId) ++ [newRow]).find?
          (fun r => r.id == documentId)
        = some { row with retry_count := row.retry_count + 1,
                          status := "pending" } := by
  have hfresh1 : ∀ q ∈ st.rows.map (retryBump documentId),
      q.id < st.nextId := by
    intro q hq
    rcases List.mem_map.mp hq with ⟨a, ha, rfl⟩
    have hlt := hfresh a ha
    unfold retryBump
    by_cases h : (a.id == documentId) = true <;> simp [h] <;> exact hlt
  obtain ⟨resp, res, newRow, heq, hid, hord2, hdt2, hst2, hdisj⟩ :=
    generateDocuments_single_spec env
      { rows := st.rows.map (retryBump documentId), nextId := st.nextId }
      row.order_id row.webhook_event_id o row.document_type hdt hcred ho
      hitems haddons hins hfresh1
  have hrowid : (row.id == documentId) = true := by
    simpa using List.find?_some hfind
  have hmap : (st.rows.map (retryBump documentId)).find?
      (fun r => r.id == documentId) = some (retryBump documentId row) := by
    rw [List.find?_map]
    have hcomp : ((fun r : OrderDocRow => r.id == documentId) ∘
        retryBump documentId) =
        (fun r : OrderDocRow => r.id == documentId) := by
      funext a
      unfold retryBump
      by_cases h : (a.id == documentId) = true <;>
        simp [Function.comp, h]
    rw [hcomp, hfind]
    rfl
  refine ⟨resp, newRow,
    [.dispatch row.document_type, .settle row.document_type res.status],
    ?_, ?_, ?_, ?_⟩
  · unfold retryDocument
    simp only [hcred, hsel, Bool.not_true, Bool.false_eq_true, if_false,
      Option.isSome_none, hfind, heq]
  · exact hid
  · rw [hst2]
    exact hdisj
  · rw [List.find?_append, hmap]
    simp only [Option.or_some]
    unfold retryBump
    rw [if_pos hrowid]

/-- C1 witness: the amended theorem applied at the all-success concrete
environment and the single-row table. -/
theorem C1_retry_same_row_amended_witness :
    stOne.rows.find? (fun r => r.id == 0) = some failedReceiptRow ∧
    (∃ (resp : DocumentGenerationResponse) (newRow : OrderDocRow)
      (ev : List GenEvent),
      retryDocument envAllOk stOne 0 =
        .ok (resp,
          { rows := stOne.rows.map (retryBump 0) ++ [newRow],
            nextId := stOne.nextId + 1 }, ev)
      ∧ newRow.id = stOne.nextId
      ∧ (newRow.status = "generated" ∨ newRow.status = "failed")
      ∧ (stOne.rows.map (retryBump 0) ++ [newRow]).find?
          (fun r => r.id == 0)
        = some { failedReceiptRow with
                  retry_count := failedReceiptRow.retry_count + 1,
                  status := "pending" }) :=
  ⟨rfl,
    C1_retry_same_row_amended envAllOk stOne 0 failedReceiptRow orderA
      rfl rfl rfl rfl rfl rfl (Or.inl rfl) rfl
      (by intro r hr; simp [stOne] at hr; rw [hr]; decide)⟩

end BootsHoney
